import Mathlib

/-!
# mpu6050 test application: frame validation and orientation state

Shallow embedding of `data.h` and `mputest.c`.

* A byte is a `Nat` below 256, a `uint32_t` a `Nat` below `2 ^ 32`.
* A `float` is represented by its 32-bit pattern; assigning a `float` to a
  `GLfloat` keeps the value.
* The packed `struct MpuReport` is 24 bytes; its memory image is little-endian
  (the program is a Win32 program).
* Calls into the C library, Win32 and GLUT are recorded as a list of `Effect`s
  in program order.
-/

set_option maxRecDepth 100000

namespace Mpu6050

/-! ## data.h -/

/-- Source: `#define MPU_REPORT_SIGNATURE 0xDEADF00D` -/
def MPU_REPORT_SIGNATURE : Nat := 0xDEADF00D

/-- Source: `struct MpuReport` (packed, no padding). The three angles are `float`s, kept
as their 32-bit patterns. -/
structure MpuReport where
  signature : Nat
  size : Nat
  crc : Nat
  x_angle : Nat
  y_angle : Nat
  z_angle : Nat
  deriving DecidableEq, Repr

/-- Source: `sizeof(struct MpuReport)` under `#pragma pack(push, 1)`: six 4-byte fields. -/
def sizeofMpuReport : Nat := 24

/-- The 32-bit value stored little-endian in four bytes. -/
def le32 (b0 b1 b2 b3 : Nat) : Nat :=
  b0 + 256 * b1 + 65536 * b2 + 16777216 * b3

/-- The four bytes of a 32-bit value in memory order (little-endian). -/
def bytes32 (v : Nat) : List Nat :=
  [v % 256, v / 256 % 256, v / 65536 % 256, v / 16777216 % 256]

/-- The 32-bit field at byte offset `off` of a memory image. -/
def field32 (b : List Nat) (off : Nat) : Nat :=
  le32 (b.getD off 0) (b.getD (off + 1) 0) (b.getD (off + 2) 0) (b.getD (off + 3) 0)

/-- The `struct MpuReport` whose memory image is the byte list `b`. -/
def MpuReport.ofBytes (b : List Nat) : MpuReport :=
  { signature := field32 b 0
    size := field32 b 4
    crc := field32 b 8
    x_angle := field32 b 12
    y_angle := field32 b 16
    z_angle := field32 b 20 }

/-- The memory image of a `struct MpuReport`, what `crc32(&copy, sizeof(copy))`
is given. -/
def MpuReport.toBytes (r : MpuReport) : List Nat :=
  bytes32 r.signature ++ bytes32 r.size ++ bytes32 r.crc ++
    bytes32 r.x_angle ++ bytes32 r.y_angle ++ bytes32 r.z_angle

/-! ## crc32.c (declared in data.h, the file itself is not part of the sources) -/

/-- One bit of a reflected CRC: shift right, and fold the polynomial in when the
bit shifted out was set. -/
def crcBit (poly c : Nat) : Nat :=
  if c % 2 = 1 then (c >>> 1) ^^^ poly else c >>> 1

/-- One byte of a reflected CRC: the byte is folded into the low 8 bits, then 8
bit steps follow. -/
def crcByte (poly c b : Nat) : Nat :=
  crcBit poly (crcBit poly (crcBit poly (crcBit poly
    (crcBit poly (crcBit poly (crcBit poly (crcBit poly (c ^^^ b))))))))

/-- A reflected 32-bit CRC with polynomial `poly`, initial register `init` and
final xor `xorout`. -/
def crc32With (poly init xorout : Nat) (buf : List Nat) : Nat :=
  (buf.foldl (crcByte poly) init) ^^^ xorout

/-- Modelled from the spec: `crc32` of `crc32.c`, which `data.h` declares and
`mputest.c` calls but which is not among the sources. The spec calls it the
"standard CRC-32 algorithm, table- or bit-driven, polynomial-compatible with
common CRC-32 implementations": the reflected polynomial `0xEDB88320` with
initial value and final xor `0xFFFFFFFF`, here bit-driven. -/
def crc32 (buf : List Nat) : Nat :=
  crc32With 0xEDB88320 0xFFFFFFFF 0xFFFFFFFF buf

/-! ## mputest.c -/

/-- The globals `g_xrot`, `g_yrot`, `g_zrot`. -/
structure Globals where
  g_xrot : Nat
  g_yrot : Nat
  g_zrot : Nat
  deriving DecidableEq, Repr

/-- The pattern of `0.0f`. -/
def f0 : Nat := 0

/-- The pattern of `1.0f`. -/
def f1 : Nat := 0x3F800000

/-- Source: `static GLfloat g_xrot = 0.0f; g_yrot = 0.0f; g_zrot = 0.0f;` -/
def Globals.initial : Globals := { g_xrot := f0, g_yrot := f0, g_zrot := f0 }

/-- Calls that leave the program, in program order. -/
inductive Effect where
  /-- Source: `fprintf(stderr, msg)` -/
  | fprintf_stderr (msg : String)
  /-- Source: `fprintf(stderr, msg ": %d\n", error)` of `DIE` -/
  | fprintf_stderr_code (msg : String) (error : Nat)
  /-- Source: `printf` of a fixed text -/
  | printf (msg : String)
  /-- Source: `printf(fmt, arg)` with one string argument -/
  | printf_s (fmt arg : String)
  /-- Source: `printf("Gyro ...", x, y, z)` with the three angles as arguments -/
  | printf_gyro (x y z : Nat)
  /-- Source: `glutPostRedisplay()` -/
  | glutPostRedisplay
  /-- Source: `glutTimerFunc(ms, timerFunc, 0)` -/
  | glutTimerFunc (ms : Nat)
  /-- the GL calls of `display`, which rotate by the three angles and draw -/
  | draw (xrot yrot zrot : Nat)
  /-- the GL calls of `reshape` -/
  | viewport (width height : Int)
  /-- Source: `CloseHandle(gSensorHandle)` -/
  | CloseHandle
  /-- Source: `exit(code)` -/
  | exit (code : Nat)
  deriving DecidableEq, Repr

/-- What one `ReadFile(gSensorHandle, &report, sizeof(report), &bytesRead, NULL)`
does: `res` is its return value, `data` the bytes it stored at the start of the
buffer (`bytesRead = data.length`), `lastError` what `GetLastError()` gives
after it. -/
structure ReadResult where
  res : Bool
  data : List Nat
  lastError : Nat
  deriving DecidableEq, Repr

/-- The value of `bytesRead` after a read. -/
def ReadResult.bytesRead (rd : ReadResult) : Nat := rd.data.length

/-- The 24 bytes of `report` after the read: the bytes read, then what the
buffer held before the call (`stack`, the local is not initialised). At most
`sizeof(report)` bytes are stored. -/
def readInto (stack data : List Nat) : List Nat :=
  (data ++ stack.drop data.length).take sizeofMpuReport

/-- Source: `timerFunc`. `crc32` is the function of `crc32.c`, `stack` the previous
content of the local `report`. -/
def timerFunc (crc32 : List Nat → Nat) (g : Globals) (stack : List Nat)
    (rd : ReadResult) : Globals × List Effect :=
  if !rd.res then
    (g, [Effect.fprintf_stderr_code "Could not read MPU report" rd.lastError,
         Effect.exit rd.lastError])
  else
    let report := MpuReport.ofBytes (readInto stack rd.data)
    if report.signature != MPU_REPORT_SIGNATURE then
      (g, [Effect.fprintf_stderr "Invalid report signature", Effect.glutTimerFunc 100])
    else if report.size != sizeofMpuReport then
      (g, [Effect.fprintf_stderr "Invalid report size", Effect.glutTimerFunc 100])
    else
      let copy := { report with crc := 0 }
      if report.crc != crc32 copy.toBytes then
        (g, [Effect.fprintf_stderr "CRC error\n", Effect.glutTimerFunc 100])
      else
        ({ g_xrot := report.y_angle, g_yrot := report.z_angle, g_zrot := report.x_angle },
         [Effect.printf_gyro report.x_angle report.y_angle report.z_angle,
          Effect.glutPostRedisplay, Effect.glutTimerFunc 100])

/-- Single-precision addition and subtraction on bit patterns, as the machine
does them; the handlers below only pass values through them. -/
structure FloatArith where
  add : Nat → Nat → Nat
  sub : Nat → Nat → Nat

/-- Source: `toupper` in the "C" locale (the program never calls `setlocale`). -/
def toupper (c : Nat) : Nat :=
  if 97 ≤ c ∧ c ≤ 122 then c - 32 else c

/-- Source: `GLUT_KEY_F5` of `GL/glut.h`. -/
def GLUT_KEY_F5 : Int := 5

/-- Source: `reshape`: GL calls only. -/
def reshape (g : Globals) (width height : Int) : Globals × List Effect :=
  let height := if height = 0 then 1 else height
  (g, [Effect.viewport width height])

/-- Source: `display`: reads the three angles and draws. -/
def display (g : Globals) : Globals × List Effect :=
  (g, [Effect.draw g.g_xrot g.g_yrot g.g_zrot])

/-- Source: `keyboardHandler`. `key` is an `unsigned char`. -/
def keyboardHandler (fl : FloatArith) (g : Globals) (key : Nat) (_x _y : Int) :
    Globals × List Effect :=
  let key := toupper key % 256
  let k := toupper key
  let g1 :=
    if k = 87 then { g with g_xrot := fl.sub g.g_xrot f1 }       -- key W
    else if k = 83 then { g with g_xrot := fl.add g.g_xrot f1 }  -- key S
    else if k = 65 then { g with g_yrot := fl.sub g.g_yrot f1 }  -- key A
    else if k = 68 then { g with g_yrot := fl.add g.g_yrot f1 }  -- key D
    else g
  (g1, [Effect.glutPostRedisplay])

/-- Source: `keyboardSpecialHandler`. -/
def keyboardSpecialHandler (g : Globals) (key : Int) (_x _y : Int) :
    Globals × List Effect :=
  if key = GLUT_KEY_F5 then
    ({ g_xrot := f0, g_yrot := f0, g_zrot := f0 }, [Effect.glutPostRedisplay])
  else (g, [])

/-- A callback that `glutMainLoop` dispatches, with what the environment supplies
to it. -/
inductive Event where
  | reshape (width height : Int)
  | display
  | keyboard (key : Nat) (x y : Int)
  | special (key : Int) (x y : Int)
  /-- the timer fires; `stack` is the prior content of the local `report`, `rd`
  what `ReadFile` does -/
  | timer (stack : List Nat) (rd : ReadResult)

/-- The callback registered in `main` for an event. -/
def dispatch (crc32 : List Nat → Nat) (fl : FloatArith) (g : Globals) :
    Event → Globals × List Effect
  | Event.reshape w h => reshape g w h
  | Event.display => display g
  | Event.keyboard k x y => keyboardHandler fl g k x y
  | Event.special k x y => keyboardSpecialHandler g k x y
  | Event.timer stack rd => timerFunc crc32 g stack rd

/-- The code of the first `exit` among some effects. -/
def exitCode : List Effect → Option Nat
  | [] => none
  | Effect.exit c :: _ => some c
  | _ :: es => exitCode es

/-- Source: `glutMainLoop()`: dispatches the events in order; an `exit` inside a callback
ends the process (third component), the end of the list is the loop returning. -/
def glutMainLoop (crc32 : List Nat → Nat) (fl : FloatArith) :
    Globals → List Event → Globals × List Effect × Option Nat
  | g, [] => (g, [], none)
  | g, e :: es =>
    let r := dispatch crc32 fl g e
    match exitCode r.2 with
    | some c => (r.1, r.2, some c)
    | none =>
      let rest := glutMainLoop crc32 fl r.1 es
      (rest.1, r.2 ++ rest.2.1, rest.2.2)

/-- What the environment answers to `main`. -/
structure Env where
  argc : Nat
  /-- Source: `argv[1]`, read when `argc == 2` -/
  argv1 : String
  /-- Source: `CreateFile` gave a handle other than `INVALID_HANDLE_VALUE` -/
  createFileOk : Bool
  getCommStateOk : Bool
  setCommStateOk : Bool
  /-- Source: `GetLastError()` after a failed call in `main` -/
  lastError : Nat
  events : List Event

/-- A finished run of the process. -/
structure Run where
  g : Globals
  trace : List Effect
  status : Nat
  deriving DecidableEq, Repr

/-- Source: `DIE(msg)`: print the error code and `exit` with it. -/
def DIE (msg : String) (error : Nat) : List Effect :=
  [Effect.fprintf_stderr_code msg error, Effect.exit error]

/-- Source: `usage`. -/
def usage : List Effect :=
  [Effect.printf "mputest [COM]\n", Effect.printf "Arguments:\n",
   Effect.printf " COM - Serial port MPU is connected to, defaults to COM5\n",
   Effect.printf "\n"]

/-- Source: `main`. `EXIT_FAILURE` is 1. The GLUT window set-up calls and `initGL`
touch none of the state kept here and are left out of the trace; the timer
registration and the main loop are kept. -/
def main (crc32 : List Nat → Nat) (fl : FloatArith) (env : Env) : Run :=
  let g := Globals.initial
  if env.argc ≠ 1 ∧ env.argc ≠ 2 then
    { g := g, trace := usage, status := 1 }
  else
    let portName := if env.argc = 1 then "COM5" else env.argv1
    let t0 := [Effect.printf_s "Using serial port %s\n" portName]
    if !env.createFileOk then
      { g := g, trace := t0 ++ DIE "Could not open serial port" env.lastError,
        status := env.lastError }
    else if !env.getCommStateOk then
      { g := g, trace := t0 ++ DIE "Could not get serial port state" env.lastError,
        status := env.lastError }
    else if !env.setCommStateOk then
      { g := g, trace := t0 ++ DIE "Could not set serial port state" env.lastError,
        status := env.lastError }
    else
      let t1 := t0 ++ [Effect.glutTimerFunc 100]
      let r := glutMainLoop crc32 fl g env.events
      match r.2.2 with
      | some c => { g := r.1, trace := t1 ++ r.2.1, status := c }
      | none => { g := r.1, trace := t1 ++ r.2.1 ++ [Effect.CloseHandle], status := 0 }

/-- The intervals of the timers that some effects register, in order. -/
def timersScheduled : List Effect → List Nat
  | [] => []
  | Effect.glutTimerFunc ms :: es => ms :: timersScheduled es
  | _ :: es => timersScheduled es

/-- The texts written to `stderr` by `fprintf(stderr, msg)`, in order. -/
def diagnostics : List Effect → List String
  | [] => []
  | Effect.fprintf_stderr msg :: es => msg :: diagnostics es
  | _ :: es => diagnostics es

/-! ## Frames used as concrete inputs -/

/-- The memory image of a report with the given fields. -/
def frameBytes (signature size crc x y z : Nat) : List Nat :=
  MpuReport.toBytes
    { signature := signature, size := size, crc := crc, x_angle := x, y_angle := y, z_angle := z }

/-- A frame as a correct producer builds it: the `crc` field holds `crc32` of the
image with that field zero. -/
def mkFrame (crc32 : List Nat → Nat) (x y z : Nat) : List Nat :=
  frameBytes MPU_REPORT_SIGNATURE sizeofMpuReport
    (crc32 (frameBytes MPU_REPORT_SIGNATURE sizeofMpuReport 0 x y z)) x y z

/-- The frame with angles `(10.0, 20.0, 30.0)`. -/
def goodFrame : List Nat := mkFrame crc32 0x41200000 0x41A00000 0x41F00000

/-- A successful read of `data`. -/
def okRead (data : List Nat) : ReadResult := { res := true, data := data, lastError := 0 }

/-- The image `b` with its `crc` field (bytes 8..11) set to zero and every other
byte unchanged. -/
def zeroCrcImage (b : List Nat) : List Nat :=
  b.take 8 ++ [0, 0, 0, 0] ++ b.drop 12

/-- The image `b` with bit `j` of the byte at offset `k` flipped. -/
def flipBit (b : List Nat) (k j : Nat) : List Nat :=
  b.take k ++ (b.getD k 0 ^^^ 2 ^ j) :: b.drop (k + 1)

/-- The frame `goodFrame` with its signature field overwritten by zero. -/
def badSignatureFrame : List Nat := [0, 0, 0, 0] ++ goodFrame.drop 4

/-- The frame `goodFrame` with its crc field forced to zero. -/
def badCrcFrame : List Nat := zeroCrcImage goodFrame

/-- The port opens and is configured, then `ReadFile` in the first tick fails
with error 5. -/
def readFailureEnv : Env :=
  { argc := 1, argv1 := "", createFileOk := true, getCommStateOk := true,
    setCommStateOk := true, lastError := 0,
    events := [Event.timer [] { res := false, data := [], lastError := 5 }] }

/-- The port opens, then `GetCommState` fails with error 87. -/
def getCommStateFailureEnv : Env :=
  { argc := 1, argv1 := "", createFileOk := true, getCommStateOk := false,
    setCommStateOk := true, lastError := 87, events := [] }

/-- The port opens and is configured, one valid frame is read, the loop returns. -/
def cleanEnv : Env :=
  { argc := 1, argv1 := "", createFileOk := true, getCommStateOk := true,
    setCommStateOk := true, lastError := 0,
    events := [Event.timer [] (okRead goodFrame), Event.display] }

/-- How a difference `d` of two CRC registers develops over `n` further bytes that
are the same in both messages. -/
def crcDelta (poly : Nat) : Nat → Nat → Nat
  | 0, d => d
  | n + 1, d => crcDelta poly n (crcByte poly d 0)

/-! ## The checksum model against the published check value -/

/-- The modelled `crc32` gives the CRC-32 check value `0xCBF43926` on the ASCII
text `123456789`. -/
theorem crc32_check_value :
    crc32 [0x31, 0x32, 0x33, 0x34, 0x35, 0x36, 0x37, 0x38, 0x39] = 0xCBF43926 := by
  decide

/-! ## Memory images -/

theorem length_24 (b : List Nat) (h : b.length = 24) :
    ∃ b0 b1 b2 b3 b4 b5 b6 b7 b8 b9 b10 b11 b12 b13 b14 b15 b16 b17 b18 b19 b20 b21 b22 b23,
      b = [b0, b1, b2, b3, b4, b5, b6, b7, b8, b9, b10, b11, b12, b13, b14, b15, b16, b17,
        b18, b19, b20, b21, b22, b23] := by
  match b, h with
  | [b0, b1, b2, b3, b4, b5, b6, b7, b8, b9, b10, b11, b12, b13, b14, b15, b16, b17,
        b18, b19, b20, b21, b22, b23], _ =>
    exact ⟨b0, b1, b2, b3, b4, b5, b6, b7, b8, b9, b10, b11, b12, b13, b14, b15, b16, b17,
        b18, b19, b20, b21, b22, b23, rfl⟩

theorem bytes32_le32 (b0 b1 b2 b3 : Nat) (h0 : b0 < 256) (h1 : b1 < 256) (h2 : b2 < 256)
    (h3 : b3 < 256) : bytes32 (le32 b0 b1 b2 b3) = [b0, b1, b2, b3] := by
  simp only [bytes32, le32]
  have e0 : (b0 + 256 * b1 + 65536 * b2 + 16777216 * b3) % 256 = b0 := by omega
  have e1 : (b0 + 256 * b1 + 65536 * b2 + 16777216 * b3) / 256 % 256 = b1 := by omega
  have e2 : (b0 + 256 * b1 + 65536 * b2 + 16777216 * b3) / 65536 % 256 = b2 := by omega
  have e3 : (b0 + 256 * b1 + 65536 * b2 + 16777216 * b3) / 16777216 % 256 = b3 := by omega
  rw [e0, e1, e2, e3]

theorem readInto_full (stack data : List Nat) (h : data.length = 24) :
    readInto stack data = data := by
  simp [readInto, sizeofMpuReport, List.take_append_eq_append_take, h]

theorem toBytes_zero_crc (b : List Nat) (h : b.length = 24) (hb : ∀ x ∈ b, x < 256) :
    MpuReport.toBytes { MpuReport.ofBytes b with crc := 0 } = zeroCrcImage b := by
  obtain ⟨b0, b1, b2, b3, b4, b5, b6, b7, b8, b9, b10, b11, b12, b13, b14, b15, b16, b17,
    b18, b19, b20, b21, b22, b23, rfl⟩ := length_24 b h
  simp only [List.mem_cons, List.mem_singleton, forall_eq_or_imp, forall_eq] at hb
  obtain ⟨h0, h1, h2, h3, h4, h5, h6, h7, -, -, -, -, h12, h13, h14, h15, h16, h17,
    h18, h19, h20, h21, h22, h23, -⟩ := hb
  simp only [MpuReport.toBytes, MpuReport.ofBytes, field32, zeroCrcImage, List.getD_cons_zero,
    List.getD_cons_succ, List.take, List.drop, List.cons_append, List.nil_append]
  rw [bytes32_le32 _ _ _ _ h0 h1 h2 h3, bytes32_le32 _ _ _ _ h4 h5 h6 h7,
    bytes32_le32 _ _ _ _ h12 h13 h14 h15, bytes32_le32 _ _ _ _ h16 h17 h18 h19,
    bytes32_le32 _ _ _ _ h20 h21 h22 h23]
  rfl

/-! ## One poll tick -/

theorem timerFunc_full (crc32 : List Nat → Nat) (g : Globals) (stack : List Nat)
    (rd : ReadResult) (hres : rd.res = true) (hlen : rd.data.length = 24)
    (hb : ∀ x ∈ rd.data, x < 256) :
    timerFunc crc32 g stack rd =
      if (MpuReport.ofBytes rd.data).signature ≠ MPU_REPORT_SIGNATURE then
        (g, [Effect.fprintf_stderr "Invalid report signature", Effect.glutTimerFunc 100])
      else if (MpuReport.ofBytes rd.data).size ≠ sizeofMpuReport then
        (g, [Effect.fprintf_stderr "Invalid report size", Effect.glutTimerFunc 100])
      else if (MpuReport.ofBytes rd.data).crc ≠ crc32 (zeroCrcImage rd.data) then
        (g, [Effect.fprintf_stderr "CRC error\n", Effect.glutTimerFunc 100])
      else
        ({ g_xrot := (MpuReport.ofBytes rd.data).y_angle,
           g_yrot := (MpuReport.ofBytes rd.data).z_angle,
           g_zrot := (MpuReport.ofBytes rd.data).x_angle },
         [Effect.printf_gyro (MpuReport.ofBytes rd.data).x_angle
            (MpuReport.ofBytes rd.data).y_angle (MpuReport.ofBytes rd.data).z_angle,
          Effect.glutPostRedisplay, Effect.glutTimerFunc 100]) := by
  simp only [timerFunc, hres, readInto_full stack rd.data hlen,
    toBytes_zero_crc rd.data hlen hb, Bool.not_true, bne_iff_ne, ne_eq, ite_not,
    Bool.false_eq_true, if_false]

theorem timerFunc_of_valid (crc32 : List Nat → Nat) (g : Globals) (stack : List Nat)
    (rd : ReadResult) (hres : rd.res = true) (hlen : rd.data.length = 24)
    (hb : ∀ x ∈ rd.data, x < 256)
    (hvalid : (MpuReport.ofBytes rd.data).signature = 0xDEADF00D ∧
      (MpuReport.ofBytes rd.data).size = 24 ∧
      (MpuReport.ofBytes rd.data).crc = crc32 (zeroCrcImage rd.data)) :
    timerFunc crc32 g stack rd =
      ({ g_xrot := (MpuReport.ofBytes rd.data).y_angle,
         g_yrot := (MpuReport.ofBytes rd.data).z_angle,
         g_zrot := (MpuReport.ofBytes rd.data).x_angle },
       [Effect.printf_gyro (MpuReport.ofBytes rd.data).x_angle
          (MpuReport.ofBytes rd.data).y_angle (MpuReport.ofBytes rd.data).z_angle,
        Effect.glutPostRedisplay, Effect.glutTimerFunc 100]) := by
  obtain ⟨hsig, hsize, hcrc⟩ := hvalid
  rw [timerFunc_full crc32 g stack rd hres hlen hb]
  rw [if_neg (by simp [MPU_REPORT_SIGNATURE, hsig]), if_neg (by simp [sizeofMpuReport, hsize]),
    if_neg (by simp [← hcrc])]

/-- C1: a successful read that fills the whole 24-byte report is adopted (the
orientation is overwritten with the remapped angles and a redraw is requested)
if and only if the signature is `0xDEADF00D`, the declared size is 24 and the
stored crc equals `crc32` of the image with its crc field zeroed. -/
theorem timerFunc_adopts_iff_valid (crc32 : List Nat → Nat) (g : Globals) (stack : List Nat)
    (rd : ReadResult) (hres : rd.res = true) (hlen : rd.data.length = 24)
    (hb : ∀ x ∈ rd.data, x < 256) :
    (Effect.glutPostRedisplay ∈ (timerFunc crc32 g stack rd).2 ∧
      (timerFunc crc32 g stack rd).1 =
        { g_xrot := (MpuReport.ofBytes rd.data).y_angle,
          g_yrot := (MpuReport.ofBytes rd.data).z_angle,
          g_zrot := (MpuReport.ofBytes rd.data).x_angle }) ↔
    ((MpuReport.ofBytes rd.data).signature = 0xDEADF00D ∧
      (MpuReport.ofBytes rd.data).size = 24 ∧
      (MpuReport.ofBytes rd.data).crc = crc32 (zeroCrcImage rd.data)) := by
  rw [timerFunc_full crc32 g stack rd hres hlen hb]
  simp only [MPU_REPORT_SIGNATURE, sizeofMpuReport]
  split_ifs with h1 h2 h3 <;> simp_all

theorem timerFunc_adopts_iff_valid_witness :
    (okRead goodFrame).res = true ∧ (okRead goodFrame).data.length = 24 ∧
    (∀ x ∈ (okRead goodFrame).data, x < 256) ∧
    ((Effect.glutPostRedisplay ∈ (timerFunc crc32 Globals.initial [] (okRead goodFrame)).2 ∧
      (timerFunc crc32 Globals.initial [] (okRead goodFrame)).1 =
        { g_xrot := (MpuReport.ofBytes (okRead goodFrame).data).y_angle,
          g_yrot := (MpuReport.ofBytes (okRead goodFrame).data).z_angle,
          g_zrot := (MpuReport.ofBytes (okRead goodFrame).data).x_angle }) ↔
    ((MpuReport.ofBytes (okRead goodFrame).data).signature = 0xDEADF00D ∧
      (MpuReport.ofBytes (okRead goodFrame).data).size = 24 ∧
      (MpuReport.ofBytes (okRead goodFrame).data).crc =
        crc32 (zeroCrcImage (okRead goodFrame).data))) :=
  ⟨rfl, by decide, by decide,
    timerFunc_adopts_iff_valid crc32 Globals.initial [] (okRead goodFrame) rfl (by decide)
      (by decide)⟩

/-- C2: a 24-byte frame that passes the three checks replaces the whole
orientation state by the wire values under the fixed mapping wire y to
`g_xrot` (offset 16), wire z to `g_yrot` (offset 20), wire x to `g_zrot`
(offset 12), unchanged bit for bit, and a redraw is requested. -/
theorem timerFunc_valid_remaps (crc32 : List Nat → Nat) (g : Globals) (stack : List Nat)
    (rd : ReadResult) (hres : rd.res = true) (hlen : rd.data.length = 24)
    (hb : ∀ x ∈ rd.data, x < 256)
    (hsig : (MpuReport.ofBytes rd.data).signature = 0xDEADF00D)
    (hsize : (MpuReport.ofBytes rd.data).size = 24)
    (hcrc : (MpuReport.ofBytes rd.data).crc = crc32 (zeroCrcImage rd.data)) :
    (timerFunc crc32 g stack rd).1 =
        { g_xrot := field32 rd.data 16, g_yrot := field32 rd.data 20,
          g_zrot := field32 rd.data 12 } ∧
      (timerFunc crc32 g stack rd).1.g_xrot = (MpuReport.ofBytes rd.data).y_angle ∧
      (timerFunc crc32 g stack rd).1.g_yrot = (MpuReport.ofBytes rd.data).z_angle ∧
      (timerFunc crc32 g stack rd).1.g_zrot = (MpuReport.ofBytes rd.data).x_angle ∧
      Effect.glutPostRedisplay ∈ (timerFunc crc32 g stack rd).2 := by
  rw [timerFunc_full crc32 g stack rd hres hlen hb]
  simp only [MPU_REPORT_SIGNATURE, sizeofMpuReport, hsig, hsize, hcrc, ne_eq,
    not_true_eq_false, if_false]
  simp [MpuReport.ofBytes]

theorem timerFunc_valid_remaps_witness :
    (timerFunc crc32 Globals.initial [] (okRead goodFrame)).1 =
        { g_xrot := field32 (okRead goodFrame).data 16,
          g_yrot := field32 (okRead goodFrame).data 20,
          g_zrot := field32 (okRead goodFrame).data 12 } ∧
      (timerFunc crc32 Globals.initial [] (okRead goodFrame)).1.g_xrot =
        (MpuReport.ofBytes (okRead goodFrame).data).y_angle ∧
      (timerFunc crc32 Globals.initial [] (okRead goodFrame)).1.g_yrot =
        (MpuReport.ofBytes (okRead goodFrame).data).z_angle ∧
      (timerFunc crc32 Globals.initial [] (okRead goodFrame)).1.g_zrot =
        (MpuReport.ofBytes (okRead goodFrame).data).x_angle ∧
      Effect.glutPostRedisplay ∈ (timerFunc crc32 Globals.initial [] (okRead goodFrame)).2 :=
  timerFunc_valid_remaps crc32 Globals.initial [] (okRead goodFrame) rfl (by decide)
    (by decide) (by decide) (by decide) (by decide)

/-- C3: a successful read of a 24-byte frame that fails the signature, the
declared size or the checksum check leaves `g_xrot`, `g_yrot`, `g_zrot` as they
were before the tick and requests no redraw. -/
theorem timerFunc_invalid_keeps_state (crc32 : List Nat → Nat) (g : Globals)
    (stack : List Nat) (rd : ReadResult) (hres : rd.res = true)
    (hlen : rd.data.length = 24) (hb : ∀ x ∈ rd.data, x < 256)
    (hbad : (MpuReport.ofBytes rd.data).signature ≠ 0xDEADF00D ∨
      (MpuReport.ofBytes rd.data).size ≠ 24 ∨
      (MpuReport.ofBytes rd.data).crc ≠ crc32 (zeroCrcImage rd.data)) :
    (timerFunc crc32 g stack rd).1 = g ∧
      (timerFunc crc32 g stack rd).1.g_xrot = g.g_xrot ∧
      (timerFunc crc32 g stack rd).1.g_yrot = g.g_yrot ∧
      (timerFunc crc32 g stack rd).1.g_zrot = g.g_zrot ∧
      Effect.glutPostRedisplay ∉ (timerFunc crc32 g stack rd).2 := by
  rw [timerFunc_full crc32 g stack rd hres hlen hb]
  simp only [MPU_REPORT_SIGNATURE, sizeofMpuReport]
  split_ifs with h1 h2 h3
  · simp
  · simp
  · simp
  · exfalso
    rcases hbad with h | h | h
    · exact h (not_not.mp h1)
    · exact h (not_not.mp h2)
    · exact h (not_not.mp h3)

theorem timerFunc_invalid_keeps_state_witness :
    (timerFunc crc32 ⟨7, 8, 9⟩ [] (okRead badCrcFrame)).1 = ⟨7, 8, 9⟩ ∧
      (timerFunc crc32 ⟨7, 8, 9⟩ [] (okRead badCrcFrame)).1.g_xrot = 7 ∧
      (timerFunc crc32 ⟨7, 8, 9⟩ [] (okRead badCrcFrame)).1.g_yrot = 8 ∧
      (timerFunc crc32 ⟨7, 8, 9⟩ [] (okRead badCrcFrame)).1.g_zrot = 9 ∧
      Effect.glutPostRedisplay ∉ (timerFunc crc32 ⟨7, 8, 9⟩ [] (okRead badCrcFrame)).2 :=
  timerFunc_invalid_keeps_state crc32 ⟨7, 8, 9⟩ [] (okRead badCrcFrame) rfl (by decide)
    (by decide) (by decide)

/-- C5: a rejected 24-byte frame gets exactly one diagnostic, that of the first
failing check in the order signature, declared size, checksum; and when the
signature or the size check fails the whole tick is the same for any two
checksum functions, so `crc32` plays no part in it. -/
theorem timerFunc_first_failing_check (crc32 : List Nat → Nat) (g : Globals)
    (stack : List Nat) (rd : ReadResult) (hres : rd.res = true)
    (hlen : rd.data.length = 24) (hb : ∀ x ∈ rd.data, x < 256)
    (hbad : (MpuReport.ofBytes rd.data).signature ≠ 0xDEADF00D ∨
      (MpuReport.ofBytes rd.data).size ≠ 24 ∨
      (MpuReport.ofBytes rd.data).crc ≠ crc32 (zeroCrcImage rd.data)) :
    diagnostics (timerFunc crc32 g stack rd).2 =
        [if (MpuReport.ofBytes rd.data).signature ≠ 0xDEADF00D then "Invalid report signature"
         else if (MpuReport.ofBytes rd.data).size ≠ 24 then "Invalid report size"
         else "CRC error\n"] ∧
      ((MpuReport.ofBytes rd.data).signature ≠ 0xDEADF00D ∨
          (MpuReport.ofBytes rd.data).size ≠ 24 →
        ∀ crcA crcB : List Nat → Nat,
          timerFunc crcA g stack rd = timerFunc crcB g stack rd) := by
  constructor
  · rw [timerFunc_full crc32 g stack rd hres hlen hb]
    simp only [MPU_REPORT_SIGNATURE, sizeofMpuReport]
    split_ifs with h1 h2 h3
    · rfl
    · rfl
    · rfl
    · exfalso
      rcases hbad with h | h | h
      · exact h (not_not.mp h1)
      · exact h (not_not.mp h2)
      · exact h (not_not.mp h3)
  · intro h crcA crcB
    rw [timerFunc_full crcA g stack rd hres hlen hb, timerFunc_full crcB g stack rd hres hlen hb]
    simp only [MPU_REPORT_SIGNATURE, sizeofMpuReport]
    rcases h with h | h
    · rw [if_pos h, if_pos h]
    · rw [if_pos h, if_pos h]

theorem timerFunc_first_failing_check_witness :
    diagnostics (timerFunc crc32 Globals.initial [] (okRead badSignatureFrame)).2 =
        [if (MpuReport.ofBytes (okRead badSignatureFrame).data).signature ≠ 0xDEADF00D then
            "Invalid report signature"
         else if (MpuReport.ofBytes (okRead badSignatureFrame).data).size ≠ 24 then
            "Invalid report size"
         else "CRC error\n"] ∧
      ((MpuReport.ofBytes (okRead badSignatureFrame).data).signature ≠ 0xDEADF00D ∨
          (MpuReport.ofBytes (okRead badSignatureFrame).data).size ≠ 24 →
        ∀ crcA crcB : List Nat → Nat,
          timerFunc crcA Globals.initial [] (okRead badSignatureFrame) =
            timerFunc crcB Globals.initial [] (okRead badSignatureFrame)) :=
  timerFunc_first_failing_check crc32 Globals.initial [] (okRead badSignatureFrame) rfl
    (by decide) (by decide) (by decide)

/-- C7: a tick registers the next timer exactly once, at 100 ms, when the read
succeeded (whatever the checks say) and does not exit; when the read failed it
registers no timer, leaves the orientation as it was and exits with the OS
error code. -/
theorem timerFunc_reschedules_iff_read_ok (crc32 : List Nat → Nat) (g : Globals)
    (stack : List Nat) (rd : ReadResult) :
    timersScheduled (timerFunc crc32 g stack rd).2 = (if rd.res then [100] else []) ∧
      exitCode (timerFunc crc32 g stack rd).2 = (if rd.res then none else some rd.lastError) ∧
      (rd.res = true ∨ (timerFunc crc32 g stack rd).1 = g) := by
  cases hres : rd.res
  · simp [timerFunc, hres, timersScheduled, exitCode]
  · simp only [timerFunc, hres, Bool.not_true, Bool.false_eq_true, if_false, if_true]
    split_ifs <;> simp [timersScheduled, exitCode]

/-! ## Ticks in sequence -/

theorem exitCode_timerFunc_ok (crc32 : List Nat → Nat) (g : Globals) (stack : List Nat)
    (rd : ReadResult) (hres : rd.res = true) :
    exitCode (timerFunc crc32 g stack rd).2 = none := by
  simp only [timerFunc, hres, Bool.not_true, Bool.false_eq_true, if_false]
  split_ifs <;> simp [exitCode]

theorem glutMainLoop_snoc_ticks (crc32 : List Nat → Nat) (fl : FloatArith) (e : Event)
    (ticks : List Event)
    (hticks : ∀ t ∈ ticks, ∃ stack rd, t = Event.timer stack rd ∧ rd.res = true) :
    ∀ g : Globals, ∃ g1 : Globals,
      (glutMainLoop crc32 fl g (ticks ++ [e])).1 = (dispatch crc32 fl g1 e).1 := by
  induction ticks with
  | nil =>
    intro g
    refine ⟨g, ?_⟩
    simp only [List.nil_append, glutMainLoop]
    cases exitCode (dispatch crc32 fl g e).2 <;> rfl
  | cons t ts ih =>
    intro g
    obtain ⟨stack, rd, rfl, hres⟩ := hticks _ (List.mem_cons_self _ _)
    obtain ⟨g1, hg1⟩ := ih (fun t ht => hticks t (List.mem_cons_of_mem _ ht))
      (timerFunc crc32 g stack rd).1
    refine ⟨g1, ?_⟩
    simp only [List.cons_append, glutMainLoop, dispatch,
      exitCode_timerFunc_ok crc32 g stack rd hres]
    exact hg1

/-- C10: the result of a tick depends on the bytes read only. Two ticks that
read the same 24 bytes, from any two orientation states and any two earlier
buffer contents, produce the same effects (same decision, same diagnostic) and
the same orientation whenever they adopt; and a well-formed frame is adopted,
with its remapped angles as the new state, after any sequence of earlier ticks
whose reads succeeded (rejected frames included). -/
theorem timerFunc_outcome_depends_on_frame_only (crc32 : List Nat → Nat) (fl : FloatArith)
    (g1 g2 : Globals) (stack1 stack2 : List Nat) (rd : ReadResult) (ticks : List Event)
    (hres : rd.res = true) (hlen : rd.data.length = 24) (hb : ∀ x ∈ rd.data, x < 256)
    (hticks : ∀ t ∈ ticks, ∃ stack rd, t = Event.timer stack rd ∧ rd.res = true) :
    (timerFunc crc32 g1 stack1 rd).2 = (timerFunc crc32 g2 stack2 rd).2 ∧
      (Effect.glutPostRedisplay ∈ (timerFunc crc32 g1 stack1 rd).2 →
        (timerFunc crc32 g1 stack1 rd).1 = (timerFunc crc32 g2 stack2 rd).1) ∧
      ((MpuReport.ofBytes rd.data).signature = 0xDEADF00D ∧
          (MpuReport.ofBytes rd.data).size = 24 ∧
          (MpuReport.ofBytes rd.data).crc = crc32 (zeroCrcImage rd.data) →
        (glutMainLoop crc32 fl g1 (ticks ++ [Event.timer stack1 rd])).1 =
          { g_xrot := (MpuReport.ofBytes rd.data).y_angle,
            g_yrot := (MpuReport.ofBytes rd.data).z_angle,
            g_zrot := (MpuReport.ofBytes rd.data).x_angle }) := by
  refine ⟨?_, ?_, ?_⟩
  · rw [timerFunc_full crc32 g1 stack1 rd hres hlen hb,
      timerFunc_full crc32 g2 stack2 rd hres hlen hb]
    split_ifs <;> rfl
  · rw [timerFunc_full crc32 g1 stack1 rd hres hlen hb,
      timerFunc_full crc32 g2 stack2 rd hres hlen hb]
    split_ifs <;> simp
  · intro hvalid
    obtain ⟨g, hg⟩ := glutMainLoop_snoc_ticks crc32 fl (Event.timer stack1 rd) ticks hticks g1
    rw [hg]
    rw [dispatch, timerFunc_of_valid crc32 g stack1 rd hres hlen hb hvalid]

theorem timerFunc_outcome_depends_on_frame_only_witness :
    (timerFunc crc32 Globals.initial [] (okRead goodFrame)).2 =
        (timerFunc crc32 ⟨7, 8, 9⟩ badCrcFrame (okRead goodFrame)).2 ∧
      (Effect.glutPostRedisplay ∈ (timerFunc crc32 Globals.initial [] (okRead goodFrame)).2 →
        (timerFunc crc32 Globals.initial [] (okRead goodFrame)).1 =
          (timerFunc crc32 ⟨7, 8, 9⟩ badCrcFrame (okRead goodFrame)).1) ∧
      ((MpuReport.ofBytes (okRead goodFrame).data).signature = 0xDEADF00D ∧
          (MpuReport.ofBytes (okRead goodFrame).data).size = 24 ∧
          (MpuReport.ofBytes (okRead goodFrame).data).crc =
            crc32 (zeroCrcImage (okRead goodFrame).data) →
        (glutMainLoop crc32 ⟨fun a _ => a, fun a _ => a⟩ Globals.initial
            ([Event.timer [] (okRead badSignatureFrame), Event.timer [] (okRead badCrcFrame)] ++
              [Event.timer [] (okRead goodFrame)])).1 =
          { g_xrot := (MpuReport.ofBytes (okRead goodFrame).data).y_angle,
            g_yrot := (MpuReport.ofBytes (okRead goodFrame).data).z_angle,
            g_zrot := (MpuReport.ofBytes (okRead goodFrame).data).x_angle }) :=
  timerFunc_outcome_depends_on_frame_only crc32 ⟨fun a _ => a, fun a _ => a⟩ Globals.initial
    ⟨7, 8, 9⟩ [] badCrcFrame (okRead goodFrame)
    [Event.timer [] (okRead badSignatureFrame), Event.timer [] (okRead badCrcFrame)]
    rfl (by decide) (by decide)
    (by
      intro t ht
      simp only [List.mem_cons, List.mem_singleton, List.not_mem_nil, or_false] at ht
      rcases ht with rfl | rfl
      · exact ⟨[], okRead badSignatureFrame, rfl, rfl⟩
      · exact ⟨[], okRead badCrcFrame, rfl, rfl⟩)

/-! ## Reads of fewer than 24 bytes -/

/-- C4 as stated fails: a successful read of 0 bytes, with the previous frame
still in the buffer, is not rejected: the orientation is overwritten and a
redraw is requested. -/
theorem timerFunc_short_read_adopted :
    (okRead []).res = true ∧ (okRead []).bytesRead ≠ 24 ∧
      (timerFunc crc32 Globals.initial goodFrame (okRead [])).1 =
        { g_xrot := 0x41A00000, g_yrot := 0x41F00000, g_zrot := 0x41200000 } ∧
      (timerFunc crc32 Globals.initial goodFrame (okRead [])).1 ≠ Globals.initial ∧
      Effect.glutPostRedisplay ∈ (timerFunc crc32 Globals.initial goodFrame (okRead [])).2 ∧
      diagnostics (timerFunc crc32 Globals.initial goodFrame (okRead [])).2 = [] := by
  decide

/-- C4 amended: `timerFunc` never looks at `bytesRead`. After a successful read
of any number of bytes the tick is rejected exactly when the report buffer as it
stands after the read (the bytes read, then the earlier content) fails the
signature, the declared size or the checksum check; then the orientation is not
updated, no redraw is requested and the only diagnostic is that of the first
failing check, never one about the length. -/
theorem timerFunc_no_length_check (crc32 : List Nat → Nat) (g : Globals) (stack : List Nat)
    (rd : ReadResult) (hres : rd.res = true) :
    (Effect.glutPostRedisplay ∉ (timerFunc crc32 g stack rd).2 ↔
        ((MpuReport.ofBytes (readInto stack rd.data)).signature ≠ 0xDEADF00D ∨
          (MpuReport.ofBytes (readInto stack rd.data)).size ≠ 24 ∨
          (MpuReport.ofBytes (readInto stack rd.data)).crc ≠
            crc32 (MpuReport.toBytes
              { MpuReport.ofBytes (readInto stack rd.data) with crc := 0 }))) ∧
      (Effect.glutPostRedisplay ∉ (timerFunc crc32 g stack rd).2 →
        (timerFunc crc32 g stack rd).1 = g ∧
        diagnostics (timerFunc crc32 g stack rd).2 =
          [if (MpuReport.ofBytes (readInto stack rd.data)).signature ≠ 0xDEADF00D then
              "Invalid report signature"
           else if (MpuReport.ofBytes (readInto stack rd.data)).size ≠ 24 then
              "Invalid report size"
           else "CRC error\n"]) := by
  simp only [timerFunc, hres, Bool.not_true, Bool.false_eq_true, if_false, bne_iff_ne, ne_eq,
    ite_not, MPU_REPORT_SIGNATURE, sizeofMpuReport]
  split_ifs with h1 h2 h3 <;> simp_all [diagnostics]

theorem timerFunc_no_length_check_witness :
    (Effect.glutPostRedisplay ∉
          (timerFunc crc32 ⟨7, 8, 9⟩ badCrcFrame (okRead (goodFrame.take 4))).2 ↔
        ((MpuReport.ofBytes (readInto badCrcFrame (okRead (goodFrame.take 4)).data)).signature ≠
            0xDEADF00D ∨
          (MpuReport.ofBytes (readInto badCrcFrame (okRead (goodFrame.take 4)).data)).size ≠ 24 ∨
          (MpuReport.ofBytes (readInto badCrcFrame (okRead (goodFrame.take 4)).data)).crc ≠
            crc32 (MpuReport.toBytes
              { MpuReport.ofBytes (readInto badCrcFrame (okRead (goodFrame.take 4)).data) with
                crc := 0 }))) ∧
      (Effect.glutPostRedisplay ∉
          (timerFunc crc32 ⟨7, 8, 9⟩ badCrcFrame (okRead (goodFrame.take 4))).2 →
        (timerFunc crc32 ⟨7, 8, 9⟩ badCrcFrame (okRead (goodFrame.take 4))).1 = ⟨7, 8, 9⟩ ∧
        diagnostics (timerFunc crc32 ⟨7, 8, 9⟩ badCrcFrame (okRead (goodFrame.take 4))).2 =
          [if (MpuReport.ofBytes
                (readInto badCrcFrame (okRead (goodFrame.take 4)).data)).signature ≠
              0xDEADF00D then
              "Invalid report signature"
           else if (MpuReport.ofBytes
                (readInto badCrcFrame (okRead (goodFrame.take 4)).data)).size ≠ 24 then
              "Invalid report size"
           else "CRC error\n"]) :=
  timerFunc_no_length_check crc32 ⟨7, 8, 9⟩ badCrcFrame (okRead (goodFrame.take 4)) rfl

/-! ## Who writes the orientation -/

/-- C8 as stated fails: after a tick adopted the frame `goodFrame`, the F5 key
sets the three angles back to zero, outside any tick. -/
theorem keyboardSpecialHandler_F5_resets_orientation :
    (timerFunc crc32 Globals.initial [] (okRead goodFrame)).1 =
        { g_xrot := 0x41A00000, g_yrot := 0x41F00000, g_zrot := 0x41200000 } ∧
      (keyboardSpecialHandler (timerFunc crc32 Globals.initial [] (okRead goodFrame)).1
          GLUT_KEY_F5 0 0).1 = { g_xrot := 0, g_yrot := 0, g_zrot := 0 } ∧
      (keyboardSpecialHandler (timerFunc crc32 Globals.initial [] (okRead goodFrame)).1
          GLUT_KEY_F5 0 0).1 ≠ (timerFunc crc32 Globals.initial [] (okRead goodFrame)).1 := by
  decide

/-- C8 amended: the orientation starts at `(0, 0, 0)`; `display` and `reshape`
never change it; `timerFunc` changes it only in a tick whose read succeeded and
whose buffer passed the three checks, and then as a whole from the three
angles of that buffer; `keyboardHandler` never changes `g_zrot`, subtracts or adds `1.0`
to `g_xrot` on W or S and to `g_yrot` on A or D (either case), and changes
nothing on any other key; `keyboardSpecialHandler` sets all three to zero on F5
and changes nothing on any other key. -/
theorem orientation_writers (crc32 : List Nat → Nat) (fl : FloatArith) (g : Globals) :
    Globals.initial = { g_xrot := 0, g_yrot := 0, g_zrot := 0 } ∧
      (display g).1 = g ∧
      (∀ w h : Int, (reshape g w h).1 = g) ∧
      (∀ (stack : List Nat) (rd : ReadResult),
        (timerFunc crc32 g stack rd).1 = g ∨
          (rd.res = true ∧
            (MpuReport.ofBytes (readInto stack rd.data)).signature = 0xDEADF00D ∧
            (MpuReport.ofBytes (readInto stack rd.data)).size = 24 ∧
            (MpuReport.ofBytes (readInto stack rd.data)).crc =
              crc32 (MpuReport.toBytes
                { MpuReport.ofBytes (readInto stack rd.data) with crc := 0 }) ∧
            (timerFunc crc32 g stack rd).1 =
              { g_xrot := (MpuReport.ofBytes (readInto stack rd.data)).y_angle,
                g_yrot := (MpuReport.ofBytes (readInto stack rd.data)).z_angle,
                g_zrot := (MpuReport.ofBytes (readInto stack rd.data)).x_angle })) ∧
      (∀ (key : Nat) (x y : Int),
        (keyboardHandler fl g key x y).1 =
          (if toupper (toupper key % 256) = 87 then { g with g_xrot := fl.sub g.g_xrot f1 }
           else if toupper (toupper key % 256) = 83 then { g with g_xrot := fl.add g.g_xrot f1 }
           else if toupper (toupper key % 256) = 65 then { g with g_yrot := fl.sub g.g_yrot f1 }
           else if toupper (toupper key % 256) = 68 then { g with g_yrot := fl.add g.g_yrot f1 }
           else g) ∧
        (keyboardHandler fl g key x y).1.g_zrot = g.g_zrot) ∧
      (∀ key x y : Int,
        (keyboardSpecialHandler g key x y).1 =
          (if key = GLUT_KEY_F5 then { g_xrot := 0, g_yrot := 0, g_zrot := 0 } else g)) := by
  refine ⟨rfl, rfl, fun _ _ => rfl, ?_, ?_, ?_⟩
  · intro stack rd
    cases hres : rd.res
    · left
      simp [timerFunc, hres]
    · simp only [timerFunc, hres, Bool.not_true, Bool.false_eq_true, if_false, bne_iff_ne, ne_eq,
        ite_not, MPU_REPORT_SIGNATURE, sizeofMpuReport]
      split_ifs with h1 h2 h3 <;> simp_all
  · intro key x y
    refine ⟨rfl, ?_⟩
    simp only [keyboardHandler]
    split_ifs <;> rfl
  · intro key x y
    simp only [keyboardSpecialHandler, f0]
    split_ifs <;> rfl

/-! ## The handle at exit -/

/-- C9 fails on the code: when `ReadFile` fails in `timerFunc`, or when
`GetCommState` fails in `main`, the process exits through `DIE` with the error
code and `CloseHandle` is never called, although the handle is open; only the
normal return from `main` closes it (once). -/
theorem main_fatal_exit_skips_CloseHandle (crc32 : List Nat → Nat) (fl : FloatArith) :
    (main crc32 fl readFailureEnv).status = 5 ∧
      (main crc32 fl readFailureEnv).trace.count Effect.CloseHandle = 0 ∧
      (main crc32 fl getCommStateFailureEnv).status = 87 ∧
      (main crc32 fl getCommStateFailureEnv).trace.count Effect.CloseHandle = 0 ∧
      (main Mpu6050.crc32 fl cleanEnv).status = 0 ∧
      (main Mpu6050.crc32 fl cleanEnv).trace.count Effect.CloseHandle = 1 := by
  refine ⟨rfl, rfl, rfl, rfl, rfl, rfl⟩

/-! ## The checksum and single-bit errors -/

theorem crcBit_xor (poly a b : Nat) :
    crcBit poly (a ^^^ b) = crcBit poly a ^^^ crcBit poly b := by
  have hs : (a ^^^ b) >>> 1 = a >>> 1 ^^^ b >>> 1 := by
    simp only [Nat.shiftRight_eq_div_pow, pow_one, Nat.xor_div_two]
  have hm : (a ^^^ b) % 2 = (a + b) % 2 := Nat.xor_mod_two_eq
  unfold crcBit
  rw [hs, hm]
  rcases Nat.mod_two_eq_zero_or_one a with ha | ha <;>
    rcases Nat.mod_two_eq_zero_or_one b with hb | hb
  · have h : (a + b) % 2 = 0 := by omega
    simp [ha, hb, h]
  · have h : (a + b) % 2 = 1 := by omega
    simp [ha, hb, h, Nat.xor_assoc]
  · have h : (a + b) % 2 = 1 := by omega
    simp only [ha, hb, h, if_true]
    simp only [Nat.xor_assoc, Nat.xor_comm poly]
    simp
  · have h : (a + b) % 2 = 0 := by omega
    simp only [ha, hb, h, if_true]
    simp only [Nat.zero_ne_one, if_false]
    calc a >>> 1 ^^^ b >>> 1 = a >>> 1 ^^^ ((poly ^^^ poly) ^^^ b >>> 1) := by simp
      _ = a >>> 1 ^^^ poly ^^^ (b >>> 1 ^^^ poly) := by
        simp only [Nat.xor_assoc, Nat.xor_comm poly]

theorem crcByte_xor (poly c b e : Nat) :
    crcByte poly c (b ^^^ e) = crcByte poly c b ^^^ crcByte poly e 0 := by
  have h : c ^^^ (b ^^^ e) = (c ^^^ b) ^^^ (e ^^^ 0) := by
    rw [Nat.xor_zero, Nat.xor_assoc]
  unfold crcByte
  rw [h]
  simp only [crcBit_xor]

theorem crcByte_xor_state (poly c d b : Nat) :
    crcByte poly (c ^^^ d) b = crcByte poly c b ^^^ crcByte poly d 0 := by
  have h : (c ^^^ d) ^^^ b = (c ^^^ b) ^^^ (d ^^^ 0) := by
    rw [Nat.xor_zero, Nat.xor_assoc, Nat.xor_comm d b, Nat.xor_assoc]
  unfold crcByte
  rw [h]
  simp only [crcBit_xor]

theorem foldl_crcByte_xor (poly : Nat) (m : List Nat) :
    ∀ c d : Nat, m.foldl (crcByte poly) (c ^^^ d) =
      m.foldl (crcByte poly) c ^^^ crcDelta poly m.length d := by
  induction m with
  | nil => intro c d; rfl
  | cons b bs ih =>
    intro c d
    simp only [List.foldl_cons, List.length_cons, crcDelta]
    rw [crcByte_xor_state, ih]

theorem crcBit_lt (poly c : Nat) (hp : poly < 2 ^ 32) (hc : c < 2 ^ 32) :
    crcBit poly c < 2 ^ 32 := by
  have hs : c >>> 1 < 2 ^ 32 := by
    rw [Nat.shiftRight_eq_div_pow]; omega
  unfold crcBit
  split_ifs
  · exact Nat.xor_lt_two_pow hs hp
  · exact hs

theorem crcBit_ne_zero (poly c : Nat) (hp : 2 ^ 31 ≤ poly) (hc : c < 2 ^ 32) (h0 : c ≠ 0) :
    crcBit poly c ≠ 0 := by
  have hs : c >>> 1 = c / 2 := by
    rw [Nat.shiftRight_eq_div_pow, pow_one]
  unfold crcBit
  rw [hs]
  split_ifs with h
  · intro hx
    have := Nat.xor_eq_zero.mp hx
    omega
  · omega

theorem crcByte_zero_lt (poly d : Nat) (hp : poly < 2 ^ 32) (hd : d < 2 ^ 32) :
    crcByte poly d 0 < 2 ^ 32 := by
  unfold crcByte
  rw [Nat.xor_zero]
  repeat apply crcBit_lt _ _ hp
  exact hd

theorem crcByte_zero_ne_zero (poly d : Nat) (hp : poly < 2 ^ 32) (hp1 : 2 ^ 31 ≤ poly)
    (hd : d < 2 ^ 32) (h0 : d ≠ 0) : crcByte poly d 0 ≠ 0 := by
  unfold crcByte
  rw [Nat.xor_zero]
  have b1 := crcBit_lt poly d hp hd
  have n1 := crcBit_ne_zero poly d hp1 hd h0
  have b2 := crcBit_lt poly _ hp b1
  have n2 := crcBit_ne_zero poly _ hp1 b1 n1
  have b3 := crcBit_lt poly _ hp b2
  have n3 := crcBit_ne_zero poly _ hp1 b2 n2
  have b4 := crcBit_lt poly _ hp b3
  have n4 := crcBit_ne_zero poly _ hp1 b3 n3
  have b5 := crcBit_lt poly _ hp b4
  have n5 := crcBit_ne_zero poly _ hp1 b4 n4
  have b6 := crcBit_lt poly _ hp b5
  have n6 := crcBit_ne_zero poly _ hp1 b5 n5
  have b7 := crcBit_lt poly _ hp b6
  have n7 := crcBit_ne_zero poly _ hp1 b6 n6
  exact crcBit_ne_zero poly _ hp1 b7 n7

theorem crcDelta_ne_zero (poly : Nat) (hp : poly < 2 ^ 32) (hp1 : 2 ^ 31 ≤ poly) :
    ∀ (n d : Nat), d < 2 ^ 32 → d ≠ 0 → crcDelta poly n d ≠ 0 := by
  intro n
  induction n with
  | zero => intro d _ h0; exact h0
  | succ n ih =>
    intro d hd h0
    exact ih _ (crcByte_zero_lt poly d hp hd) (crcByte_zero_ne_zero poly d hp hp1 hd h0)

/-- A reflected 32-bit CRC whose polynomial has its top bit set changes whenever
one byte of the message is xor-ed with a non-zero byte. -/
theorem crc32With_byte_error (poly init xorout : Nat) (hp : poly < 2 ^ 32)
    (hp1 : 2 ^ 31 ≤ poly) (pre post : List Nat) (b e : Nat) (he : e < 256) (h0 : e ≠ 0) :
    crc32With poly init xorout (pre ++ (b ^^^ e) :: post) ≠
      crc32With poly init xorout (pre ++ b :: post) := by
  unfold crc32With
  intro h
  have h1 := Nat.xor_left_inj.mp h
  simp only [List.foldl_append, List.foldl_cons] at h1
  rw [crcByte_xor, foldl_crcByte_xor] at h1
  have h2 : crcDelta poly post.length (crcByte poly e 0) = 0 := by
    have h3 : List.foldl (crcByte poly) (crcByte poly (List.foldl (crcByte poly) init pre) b) post ^^^
        crcDelta poly post.length (crcByte poly e 0) =
        List.foldl (crcByte poly) (crcByte poly (List.foldl (crcByte poly) init pre) b) post ^^^ 0 := by
      rw [h1, Nat.xor_zero]
    exact Nat.xor_right_inj.mp h3
  have he32 : e < 2 ^ 32 := by omega
  exact crcDelta_ne_zero poly hp hp1 post.length _ (crcByte_zero_lt poly e hp he32)
    (crcByte_zero_ne_zero poly e hp hp1 he32 h0) h2

theorem list_split_at (m : List Nat) :
    ∀ k : Nat, k < m.length → m = m.take k ++ m.getD k 0 :: m.drop (k + 1) := by
  induction m with
  | nil => intro k hk; simp at hk
  | cons a as ih =>
    intro k hk
    cases k with
    | zero => simp
    | succ k =>
      simp only [List.length_cons, Nat.add_lt_add_iff_right] at hk
      simp only [List.take_succ_cons, List.getD_cons_succ, List.drop_succ_cons, List.cons_append,
        List.cons.injEq, true_and]
      exact ih k hk

theorem flipBit_length (data : List Nat) (k j : Nat) (hlen : data.length = 24) (hk : k < 24) :
    (flipBit data k j).length = 24 := by
  simp only [flipBit, List.length_append, List.length_take, List.length_cons, List.length_drop,
    hlen]
  omega

theorem getD_lt (data : List Nat) (hb : ∀ x ∈ data, x < 256) (k : Nat) :
    data.getD k 0 < 256 := by
  rw [List.getD_eq_getElem?_getD]
  cases h : data[k]? with
  | none => simp
  | some v =>
    simp only [Option.getD_some]
    exact hb v (List.getElem?_mem h)

theorem flipBit_lt (data : List Nat) (k j : Nat) (hb : ∀ x ∈ data, x < 256) (hj : j < 8) :
    ∀ x ∈ flipBit data k j, x < 256 := by
  intro x hx
  simp only [flipBit, List.mem_append, List.mem_cons] at hx
  rcases hx with hx | rfl | hx
  · exact hb x (List.mem_of_mem_take hx)
  · have h1 : data.getD k 0 < 2 ^ 8 := getD_lt data hb k
    have h2 : 2 ^ j < 2 ^ 8 := Nat.pow_lt_pow_right (by decide) hj
    exact Nat.xor_lt_two_pow h1 h2
  · exact hb x (List.mem_of_mem_drop hx)

theorem flipBit_header (data : List Nat) (k j : Nat) (hlen : data.length = 24)
    (hk : 12 ≤ k) (hk1 : k < 24) :
    (MpuReport.ofBytes (flipBit data k j)).signature = (MpuReport.ofBytes data).signature ∧
    (MpuReport.ofBytes (flipBit data k j)).size = (MpuReport.ofBytes data).size ∧
    (MpuReport.ofBytes (flipBit data k j)).crc = (MpuReport.ofBytes data).crc := by
  obtain ⟨b0, b1, b2, b3, b4, b5, b6, b7, b8, b9, b10, b11, b12, b13, b14, b15, b16, b17,
    b18, b19, b20, b21, b22, b23, rfl⟩ := length_24 data hlen
  interval_cases k <;> exact ⟨rfl, rfl, rfl⟩

theorem zeroCrcImage_flipBit (data : List Nat) (k j : Nat) (hlen : data.length = 24)
    (hk : 12 ≤ k) (hk1 : k < 24) :
    zeroCrcImage (flipBit data k j) =
      (zeroCrcImage data).take k ++
        ((zeroCrcImage data).getD k 0 ^^^ 2 ^ j) :: (zeroCrcImage data).drop (k + 1) := by
  obtain ⟨b0, b1, b2, b3, b4, b5, b6, b7, b8, b9, b10, b11, b12, b13, b14, b15, b16, b17,
    b18, b19, b20, b21, b22, b23, rfl⟩ := length_24 data hlen
  interval_cases k <;> rfl

theorem zeroCrcImage_length (data : List Nat) (hlen : data.length = 24) :
    (zeroCrcImage data).length = 24 := by
  obtain ⟨b0, b1, b2, b3, b4, b5, b6, b7, b8, b9, b10, b11, b12, b13, b14, b15, b16, b17,
    b18, b19, b20, b21, b22, b23, rfl⟩ := length_24 data hlen
  rfl

theorem crc32_zeroCrcImage_flipBit (data : List Nat) (k j : Nat) (hlen : data.length = 24)
    (hk : 12 ≤ k) (hk1 : k < 24) (hj : j < 8) :
    crc32 (zeroCrcImage (flipBit data k j)) ≠ crc32 (zeroCrcImage data) := by
  have h2 : 2 ^ j < 2 ^ 8 := Nat.pow_lt_pow_right (by decide) hj
  have h := crc32With_byte_error 0xEDB88320 0xFFFFFFFF 0xFFFFFFFF (by decide) (by decide)
    ((zeroCrcImage data).take k) ((zeroCrcImage data).drop (k + 1))
    ((zeroCrcImage data).getD k 0) (2 ^ j) h2 (Nat.pos_iff_ne_zero.mp (Nat.two_pow_pos j))
  rw [← list_split_at (zeroCrcImage data) k (by rw [zeroCrcImage_length data hlen]; exact hk1),
    ← zeroCrcImage_flipBit data k j hlen hk hk1] at h
  exact h

/-- C6: take a well-formed 24-byte frame and flip one bit of one of the 12 angle
bytes (offsets 12..23), keeping the stored crc. The signature, size and stored
crc are the ones of the original frame, `crc32` of the zero-crc image of the
mutated frame differs from the stored crc, and `timerFunc` rejects the frame
with the CRC diagnostic, leaving the orientation as it was. -/
theorem timerFunc_rejects_flipped_angle_bit (g : Globals) (stack data : List Nat) (k j : Nat)
    (hlen : data.length = 24) (hb : ∀ x ∈ data, x < 256)
    (hsig : (MpuReport.ofBytes data).signature = 0xDEADF00D)
    (hsize : (MpuReport.ofBytes data).size = 24)
    (hcrc : (MpuReport.ofBytes data).crc = crc32 (zeroCrcImage data))
    (hk : 12 ≤ k) (hk1 : k < 24) (hj : j < 8) :
    (MpuReport.ofBytes (flipBit data k j)).crc = (MpuReport.ofBytes data).crc ∧
      crc32 (zeroCrcImage (flipBit data k j)) ≠ (MpuReport.ofBytes (flipBit data k j)).crc ∧
      timerFunc crc32 g stack (okRead (flipBit data k j)) =
        (g, [Effect.fprintf_stderr "CRC error\n", Effect.glutTimerFunc 100]) := by
  obtain ⟨e1, e2, e3⟩ := flipBit_header data k j hlen hk hk1
  have hne := crc32_zeroCrcImage_flipBit data k j hlen hk hk1 hj
  refine ⟨e3, ?_, ?_⟩
  · rw [e3, hcrc]; exact hne
  · rw [timerFunc_full crc32 g stack (okRead (flipBit data k j)) rfl
      (flipBit_length data k j hlen hk1) (flipBit_lt data k j hb hj)]
    simp only [okRead]
    rw [if_neg (by simp [MPU_REPORT_SIGNATURE, e1, hsig]),
      if_neg (by simp [sizeofMpuReport, e2, hsize]),
      if_pos (by rw [e3, hcrc]; exact fun h => hne h.symm)]

theorem timerFunc_rejects_flipped_angle_bit_witness :
    goodFrame.length = 24 ∧ (∀ x ∈ goodFrame, x < 256) ∧
    (MpuReport.ofBytes goodFrame).signature = 0xDEADF00D ∧
    (MpuReport.ofBytes goodFrame).size = 24 ∧
    (MpuReport.ofBytes goodFrame).crc = crc32 (zeroCrcImage goodFrame) ∧
    ((MpuReport.ofBytes (flipBit goodFrame 13 2)).crc = (MpuReport.ofBytes goodFrame).crc ∧
      crc32 (zeroCrcImage (flipBit goodFrame 13 2)) ≠
        (MpuReport.ofBytes (flipBit goodFrame 13 2)).crc ∧
      timerFunc crc32 ⟨7, 8, 9⟩ [] (okRead (flipBit goodFrame 13 2)) =
        (⟨7, 8, 9⟩, [Effect.fprintf_stderr "CRC error\n", Effect.glutTimerFunc 100])) :=
  ⟨by decide, by decide, by decide, by decide, by decide,
    timerFunc_rejects_flipped_angle_bit ⟨7, 8, 9⟩ [] goodFrame 13 2 (by decide) (by decide)
      (by decide) (by decide) (by decide) (by decide) (by decide) (by decide)⟩

end Mpu6050
